import Mathlib

/-!
Verification of `migrate-apple-notes` (`src/main.py`), a one-shot pipeline
that extracts notes from the Apple Notes SQLite store, writes a JSON backup,
and uploads the notes to Google Keep.

The Python source is shallowly embedded below.  External libraries
(`sqlite3`, `gzip`, UTF-8 decoding with `errors='ignore'`, Python's
`str.isprintable`, and the `gkeepapi` client) are modelled as oracle
parameters (`PyEnv`, `KeepEnv`): the embedding fixes only what the
repository's own code does with their results.  Console output is modelled
as an explicit log of the printed strings.
-/

namespace Migrate

/-- A row of the joined query result over `ZICCLOUDSYNCINGOBJECT` and
`ZICNOTEDATA` (`src/main.py` lines 40-54).  `title`, `snippet`, `created`,
`modified` and the LEFT-JOINed `data` column are nullable; `markedForDeletion`
is the integer `ZMARKEDFORDELETION` flag.  Timestamps are carried as raw
numbers (`Int`), passed through unaltered by the code. -/
structure Row where
  title : Option String
  snippet : Option String
  data : Option (List Nat)
  created : Option Int
  modified : Option Int
  markedForDeletion : Int
  deriving Repr, DecidableEq

/-- The note record built by the extractor (`src/main.py` lines 77-82). -/
structure Note where
  title : String
  content : String
  created : Option Int
  modified : Option Int
  deriving Repr, DecidableEq

/-- Oracle for the Python runtime pieces the extractor calls:
`gzip.decompress` (which may raise, modelled as `Except`), `bytes.decode`
with `errors='ignore'` (never raises), and `str.isprintable`. -/
structure PyEnv where
  gzipDecompress : List Nat → Except String (List Nat)
  decodeUtf8Ignore : List Nat → String
  isPrintable : Char → Bool

/-- Python `x or default` on a nullable string: `None` and `""` are falsy. -/
def pyStrOr (x : Option String) (default : String) : String :=
  match x with
  | none => default
  | some s => if s = "" then default else s

/-- The `WHERE` clause of the query (`src/main.py` lines 49-50): keep rows
whose `ZTITLE1` is non-null and whose `ZMARKEDFORDELETION` equals 0. -/
def rowQualifies (r : Row) : Bool :=
  r.title.isSome && r.markedForDeletion == 0

/-- Running the fixed query over the joined row set: the SQL engine returns
exactly the rows satisfying the `WHERE` clause, in table order. -/
def runQuery (table : List Row) : List Row :=
  table.filter rowQualifies

/-- The character filter of `src/main.py` line 70:
`char.isprintable() or char in '\n\r\t'`. -/
def keepChar (isP : Char → Bool) (c : Char) : Bool :=
  isP c || c == '\n' || c == '\r' || c == '\t'

/-- How a Python f-string renders a nullable string value (`None` → `"None"`). -/
def pyShowOptStr (x : Option String) : String :=
  match x with
  | none => "None"
  | some s => s

/-- Body of the extraction loop for one row (`src/main.py` lines 57-82).
`if data:` on line 62 tests Python truthiness: `None` and the empty bytes
blob both take the silent snippet fallback, and only a non-empty blob is
handed to `gzip.decompress`.  Returns the note appended for the row together
with the warning lines printed while processing it. -/
def processRow (env : PyEnv) (r : Row) : Note × List String :=
  let step :=
    match r.data with
    | some d =>
      if d = [] then (pyStrOr r.snippet "", ([] : List String))
      else
        match env.gzipDecompress d with
        | Except.ok bytes =>
          let decoded := env.decodeUtf8Ignore bytes
          (String.mk (decoded.toList.filter (keepChar env.isPrintable)), [])
        | Except.error e =>
          (pyStrOr r.snippet "",
            ["Warning: Could not decompress note \u0027" ++ pyShowOptStr r.title
              ++ "\u0027: " ++ e])
    | none => (pyStrOr r.snippet "", ([] : List String))
  ({ title := pyStrOr r.title "Untitled"
     content := step.1
     created := r.created
     modified := r.modified }, step.2)

/-- The `for row in rows` loop of `src/main.py` lines 57-82: one note is
appended per row, unconditionally; warnings accumulate in print order. -/
def extractLoop (env : PyEnv) : List Row → List Note × List String
  | [] => ([], [])
  | r :: rest =>
    let here := processRow env r
    let there := extractLoop env rest
    (here.1 :: there.1, here.2 ++ there.2)

/-- Result of `extract_apple_notes` (`src/main.py` lines 22-86): the notes
returned plus the lines printed. -/
structure ExtractResult where
  notes : List Note
  log : List String
  deriving Repr, DecidableEq

/-- `extract_apple_notes` (`src/main.py` lines 22-86).  `dbExists` models
`os.path.exists(notes_db)`; `table` models the joined row set the fixed
query ranges over.  When the database file is missing the function prints an
error and returns the empty list; otherwise it runs the query and the
per-row loop. -/
def extract_apple_notes (env : PyEnv) (dbExists : Bool) (table : List Row) :
    ExtractResult :=
  if !dbExists then
    { notes := [], log := ["Error: Apple Notes database not found"] }
  else
    let rows := runQuery table
    let looped := extractLoop env rows
    { notes := looped.1
      log := looped.2 ++
        ["Extracted " ++ toString looped.1.length ++ " notes from Apple Notes"] }

/-- JSON values, as the Python `json` module represents them.  `save_backup`
serializes the note list with `json.dump`; the textual rendering and
re-parsing of a JSON value are the `json` library's (lossless for this
shape), so the backup file is modelled by the JSON value written to it. -/
inductive JsonVal where
  | str (s : String)
  | num (n : Int)
  | null
  | arr (elems : List JsonVal)
  | obj (fields : List (String × JsonVal))
  deriving Repr

/-- JSON encoding of a nullable raw timestamp (`None` → `null`). -/
def jsonOfOptInt (x : Option Int) : JsonVal :=
  match x with
  | none => JsonVal.null
  | some n => JsonVal.num n

/-- JSON encoding of one note dict (`src/main.py` lines 77-82): keys in
insertion order, as `json.dump` preserves them. -/
def jsonOfNote (n : Note) : JsonVal :=
  JsonVal.obj
    [("title", JsonVal.str n.title),
     ("content", JsonVal.str n.content),
     ("created", jsonOfOptInt n.created),
     ("modified", jsonOfOptInt n.modified)]

/-- `save_backup` (`src/main.py` lines 137-144): the JSON value written to
the timestamped backup file — the array of note objects, in sequence order. -/
def save_backup (notes : List Note) : JsonVal :=
  JsonVal.arr (notes.map jsonOfNote)

/-- Parsing one backed-up note object back into a record. -/
def parseNote : JsonVal → Option Note
  | JsonVal.obj
      [("title", JsonVal.str t), ("content", JsonVal.str c),
       ("created", cr), ("modified", mo)] =>
    let parseTs : JsonVal → Option (Option Int) := fun v =>
      match v with
      | JsonVal.null => some none
      | JsonVal.num n => some (some n)
      | _ => none
    match parseTs cr, parseTs mo with
    | some cr', some mo' =>
      some { title := t, content := c, created := cr', modified := mo' }
    | _, _ => none
  | _ => none

/-- Parsing the whole backup file back into a note sequence. -/
def parseBackup : JsonVal → Option (List Note)
  | JsonVal.arr elems => elems.mapM parseNote
  | _ => none

/-- Oracle for the `gkeepapi` client.  `login` may raise; `createNote` is
called once per record — its outcome may depend on the call index (the
position in the upload sequence, 1-based, as `enumerate(notes, 1)` numbers
it) and on the title/text passed; `sync` may raise. -/
structure KeepEnv where
  login : String → String → Except String Unit
  createNote : Nat → String → String → Except String Unit
  sync : Except String Unit

/-- Observable events of one `upload_to_google_keep` run, distinguishing the
failure modes the code reports differently. -/
inductive UploadEvent where
  | loginSuccess
  | loginFailure (msg : String)
  | createSuccess (i : Nat) (title : String)
  | createFailure (i : Nat) (title : String) (msg : String)
  | syncSuccess
  | syncFailure (msg : String)
  deriving Repr, DecidableEq

/-- Result of `upload_to_google_keep`: its return value, the per-run event
trace, the two tallies, and the printed lines. -/
structure UploadResult where
  retVal : Bool
  events : List UploadEvent
  success_count : Nat
  failed_count : Nat
  log : List String
  deriving Repr, DecidableEq

/-- The login-failure guidance printed at `src/main.py` lines 99-103. -/
def loginFailureLog (e : String) : List String :=
  ["Error logging in to Google Keep: " ++ e,
   "Note: If you have 2FA enabled, you need to use an App Password:",
   "1. Go to https://myaccount.google.com/apppasswords",
   "2. Generate a new app password for \u0027Mail\u0027",
   "3. Use that password instead of your regular password"]

/-- The `for i, note_data in enumerate(notes, 1)` loop of `src/main.py`
lines 111-124: one `createNote` call per record, exceptions caught per
record, tallies and prints accumulated.  `total` is `len(notes)` as printed
in the progress lines. -/
def uploadLoop (create : Nat → String → String → Except String Unit)
    (total : Nat) :
    Nat → List Note → Nat × Nat × List UploadEvent × List String
  | _, [] => (0, 0, [], [])
  | i, n :: rest =>
    let here :=
      match create i n.title n.content with
      | Except.ok _ =>
        (1, 0, [UploadEvent.createSuccess i n.title],
          ["[" ++ toString i ++ "/" ++ toString total ++ "] Uploaded: "
            ++ n.title.take 50])
      | Except.error e =>
        (0, 1, [UploadEvent.createFailure i n.title e],
          ["[" ++ toString i ++ "/" ++ toString total ++ "] Failed to upload \u0027"
            ++ n.title ++ "\u0027: " ++ e])
    let there := uploadLoop create total (i + 1) rest
    (here.1 + there.1, here.2.1 + there.2.1,
      here.2.2.1 ++ there.2.2.1, here.2.2.2 ++ there.2.2.2)

/-- `upload_to_google_keep` (`src/main.py` lines 89-134).  On login failure
it prints guidance and returns `False` having attempted nothing; otherwise
it runs the per-record loop, then the single `sync` call (failure demoted to
a warning), prints the tally, and returns `True`. -/
def upload_to_google_keep (env : KeepEnv) (notes : List Note)
    (username password : String) : UploadResult :=
  match env.login username password with
  | Except.error e =>
    { retVal := false
      events := [UploadEvent.loginFailure e]
      success_count := 0
      failed_count := 0
      log := ["Connecting to Google Keep..."] ++ loginFailureLog e }
  | Except.ok _ =>
    let looped := uploadLoop env.createNote notes.length 1 notes
    let syncPart :=
      match env.sync with
      | Except.ok _ => ([UploadEvent.syncSuccess], ["Sync completed!"])
      | Except.error e =>
        ([UploadEvent.syncFailure e], ["Warning: Sync error: " ++ e])
    { retVal := true
      events := UploadEvent.loginSuccess :: looped.2.2.1 ++ syncPart.1
      success_count := looped.1
      failed_count := looped.2.1
      log := ["Connecting to Google Keep...",
              "Successfully logged in to Google Keep",
              "Uploading " ++ toString notes.length ++ " notes to Google Keep..."]
        ++ looped.2.2.2 ++ syncPart.2
        ++ ["Results: " ++ toString looped.1 ++ " succeeded, "
              ++ toString looped.2.1 ++ " failed"] }

/-- The whole environment `main` runs in: the Python runtime pieces, the
source database state, the interactively entered credentials, and the Keep
client oracle. -/
structure MainEnv where
  py : PyEnv
  dbExists : Bool
  table : List Row
  username : String
  password : String
  keep : KeepEnv

/-- Result of one `main` run: whether (and what) the backup writer wrote,
whether credentials were prompted for, the uploader's result when it ran,
and the printed lines. -/
structure MainResult where
  backup : Option JsonVal
  credentialsRequested : Bool
  upload : Option UploadResult
  log : List String

/-- `main` (`src/main.py` lines 147-178): extract; if the note list is empty
(Python falsiness of `[]`) print the no-notes message and return; otherwise
write the backup, prompt for credentials, upload, and print the completion
banner regardless of the uploader's return value (which is ignored). -/
def main (env : MainEnv) : MainResult :=
  let extracted := extract_apple_notes env.py env.dbExists env.table
  let header :=
    ["Apple Notes to Google Keep Migration Tool",
     "Step 1: Extracting notes from Apple Notes..."] ++ extracted.log
  if extracted.notes.isEmpty then
    { backup := none
      credentialsRequested := false
      upload := none
      log := header ++ ["No notes found or error reading Apple Notes database."] }
  else
    let uploaded :=
      upload_to_google_keep env.keep extracted.notes env.username env.password
    { backup := some (save_backup extracted.notes)
      credentialsRequested := true
      upload := some uploaded
      log := header
        ++ ["Step 2: Creating backup...", "Backup saved",
            "Step 3: Google Keep login", "Step 4: Uploading to Google Keep..."]
        ++ uploaded.log
        ++ ["Migration complete!"] }

/-! ### Helper lemmas -/

/-- The extraction loop produces exactly one note per row, in order. -/
theorem extractLoop_fst (env : PyEnv) (rows : List Row) :
    (extractLoop env rows).1 = rows.map (fun r => (processRow env r).1) := by
  induction rows with
  | nil => rfl
  | cons r rest ih => simp [extractLoop, ih]

/-- On an existing database, the extractor's notes are the per-row results
over the query's row set. -/
theorem extract_notes_eq (env : PyEnv) (table : List Row) :
    (extract_apple_notes env true table).notes =
      (runQuery table).map (fun r => (processRow env r).1) := by
  simp [extract_apple_notes, extractLoop_fst]

/-- `pyStrOr` never returns the empty string when its default is non-empty. -/
theorem pyStrOr_ne_empty (x : Option String) (d : String) (hd : d ≠ "") :
    pyStrOr x d ≠ "" := by
  cases x with
  | none => simpa [pyStrOr] using hd
  | some s => by_cases hs : s = "" <;> simp [pyStrOr, hs, hd]

/-- The note built for a row always carries the Python-defaulted title. -/
theorem processRow_title (env : PyEnv) (r : Row) :
    (processRow env r).1.title = pyStrOr r.title "Untitled" := rfl

/-- Parsing inverts the JSON encoding of one note. -/
theorem parseNote_jsonOfNote (n : Note) : parseNote (jsonOfNote n) = some n := by
  obtain ⟨t, c, cr, mo⟩ := n
  cases cr <;> cases mo <;> rfl

/-- Parsing inverts the JSON encoding of a note sequence. -/
theorem parseBackup_save (notes : List Note) :
    parseBackup (save_backup notes) = some notes := by
  induction notes with
  | nil => rfl
  | cons n rest ih =>
    simp only [save_backup, parseBackup, List.map_cons] at ih ⊢
    rw [List.mapM_cons, parseNote_jsonOfNote, ih]
    rfl

/-- Record `j` received a create attempt visible in the event trace. -/
def attemptedIn (evs : List UploadEvent) (j : Nat) : Prop :=
  (∃ t, UploadEvent.createSuccess j t ∈ evs) ∨
  (∃ t m, UploadEvent.createFailure j t m ∈ evs)

/-- Attempt evidence survives extending the event trace. -/
theorem attemptedIn_mono {evs evs' : List UploadEvent} (h : evs ⊆ evs')
    {j : Nat} : attemptedIn evs j → attemptedIn evs' j := by
  rintro (⟨t, ht⟩ | ⟨t, m, ht⟩)
  · exact Or.inl ⟨t, h ht⟩
  · exact Or.inr ⟨t, m, h ht⟩

/-- Every iteration of the upload loop tallies exactly one of
success/failure: the two counters sum to the number of records. -/
theorem uploadLoop_total (create : Nat → String → String → Except String Unit)
    (total : Nat) (ns : List Note) :
    ∀ i, (uploadLoop create total i ns).1 + (uploadLoop create total i ns).2.1
      = ns.length := by
  induction ns with
  | nil => intro i; rfl
  | cons n rest ih =>
    intro i
    cases hc : create i n.title n.content with
    | ok u => simp [uploadLoop, hc]; have := ih (i + 1); omega
    | error e => simp [uploadLoop, hc]; have := ih (i + 1); omega

/-- Under an oracle that rejects exactly call index `k`, the loop counts one
failure when `k` lies in the range of indices visited, none otherwise. -/
theorem uploadLoop_fail_unique
    (create : Nat → String → String → Except String Unit) (total k : Nat)
    (H : ∀ j t c, (∃ e, create j t c = Except.error e) ↔ j = k)
    (ns : List Note) :
    ∀ i, (uploadLoop create total i ns).2.1 =
      if i ≤ k ∧ k < i + ns.length then 1 else 0 := by
  induction ns with
  | nil =>
    intro i
    simp only [uploadLoop, List.length_nil]
    split
    · omega
    · rfl
  | cons n rest ih =>
    intro i
    cases hc : create i n.title n.content with
    | ok u =>
      have hne : i ≠ k := by
        intro hik
        rcases (H i n.title n.content).mpr hik with ⟨e, he⟩
        rw [hc] at he
        exact Except.noConfusion he
      simp only [uploadLoop, hc, List.length_cons]
      rw [ih (i + 1)]
      split_ifs <;> omega
    | error e =>
      have hik : i = k := (H i n.title n.content).mp ⟨e, hc⟩
      simp only [uploadLoop, hc, List.length_cons]
      rw [ih (i + 1)]
      split_ifs <;> omega

/-- The loop makes a create attempt for every index in the visited range:
there is no early termination. -/
theorem uploadLoop_attempted
    (create : Nat → String → String → Except String Unit) (total : Nat)
    (ns : List Note) :
    ∀ i j, i ≤ j → j < i + ns.length →
      attemptedIn (uploadLoop create total i ns).2.2.1 j := by
  induction ns with
  | nil => intro i j h1 h2; simp at h2; omega
  | cons n rest ih =>
    intro i j h1 h2
    rcases Nat.eq_or_lt_of_le h1 with rfl | hlt
    · cases hc : create i n.title n.content with
      | ok u =>
        exact Or.inl ⟨n.title, by simp [uploadLoop, hc]⟩
      | error e =>
        exact Or.inr ⟨n.title, e, by simp [uploadLoop, hc]⟩
    · have step : attemptedIn (uploadLoop create total (i + 1) rest).2.2.1 j :=
        ih (i + 1) j hlt (by simp at h2; omega)
      refine attemptedIn_mono (fun ev hev => ?_) step
      cases hc : create i n.title n.content <;>
        simp [uploadLoop, hc, hev]

/-! ### Concrete fixtures used by the witnesses -/

/-- ASCII printability, a concrete instantiation of `str.isprintable`. -/
def asciiPrintable (c : Char) : Bool :=
  32 ≤ c.toNat && c.toNat ≤ 126

/-- A runtime whose gzip succeeds (identity) and whose decoder is fixed. -/
def wPyEnvOk : PyEnv :=
  { gzipDecompress := fun bs => Except.ok bs
    decodeUtf8Ignore := fun _ => "ab"
    isPrintable := asciiPrintable }

/-- A runtime whose gzip always raises. -/
def wPyEnvFail : PyEnv :=
  { gzipDecompress := fun _ => Except.error "bad gzip"
    decodeUtf8Ignore := fun _ => ""
    isPrintable := asciiPrintable }

/-- A runtime whose decoder yields one unprintable byte amid text. -/
def wPyEnvMixed : PyEnv :=
  { gzipDecompress := fun bs => Except.ok bs
    decodeUtf8Ignore := fun _ => String.mk [Char.ofNat 1, 'a', '\n']
    isPrintable := asciiPrintable }

/-- A non-deleted row with an empty title, a snippet and no blob. -/
def wRow1 : Row :=
  { title := some ""
    snippet := some "snip"
    data := none
    created := some 1
    modified := none
    markedForDeletion := 0 }

/-- A non-deleted row whose blob is present. -/
def wRow2 : Row :=
  { title := some "Groceries"
    snippet := some "milk"
    data := some [1, 2, 3]
    created := none
    modified := some 5
    markedForDeletion := 0 }

/-- A deleted row, filtered out by the query. -/
def wRow3 : Row :=
  { title := some "Trash"
    snippet := none
    data := none
    created := none
    modified := none
    markedForDeletion := 1 }

/-- A non-deleted row whose blob is the empty bytes (Python-falsy). -/
def wRow4 : Row :=
  { title := some "Empty"
    snippet := none
    data := some []
    created := none
    modified := none
    markedForDeletion := 0 }

/-- Three concrete notes for the uploader witnesses. -/
def wNotes : List Note :=
  [{ title := "A", content := "a", created := none, modified := none },
   { title := "B", content := "b", created := some 1, modified := none },
   { title := "C", content := "c", created := none, modified := some 2 }]

/-- A Keep client that accepts the login and rejects exactly call 2. -/
def wKeepFailAt2 : KeepEnv :=
  { login := fun _ _ => Except.ok ()
    createNote := fun i _ _ => if i = 2 then Except.error "quota" else Except.ok ()
    sync := Except.ok () }

/-- A Keep client whose login raises. -/
def wKeepBadLogin : KeepEnv :=
  { login := fun _ _ => Except.error "invalid credentials"
    createNote := fun _ _ _ => Except.ok ()
    sync := Except.ok () }

/-- A Keep client that logs in but whose every create and the sync raise. -/
def wKeepAllFail : KeepEnv :=
  { login := fun _ _ => Except.ok ()
    createNote := fun _ _ _ => Except.error "nope"
    sync := Except.error "sync down" }

/-- A run against a missing database file. -/
def wMainEnvNoDb : MainEnv :=
  { py := wPyEnvOk
    dbExists := false
    table := []
    username := "u"
    password := "p"
    keep := wKeepFailAt2 }

/-- A run with one extractable row and failing login. -/
def wMainEnvRun : MainEnv :=
  { py := wPyEnvOk
    dbExists := true
    table := [wRow1]
    username := "u"
    password := "p"
    keep := wKeepBadLogin }

/-! ### Sanity checks on concrete inputs -/

example : (extract_apple_notes wPyEnvOk true [wRow1, wRow3]).notes.length = 1
    := by decide

example : (upload_to_google_keep wKeepFailAt2 wNotes "u" "p").success_count = 2
    := by decide

example : (upload_to_google_keep wKeepFailAt2 wNotes "u" "p").failed_count = 1
    := by decide

example : (upload_to_google_keep wKeepBadLogin wNotes "u" "p").retVal = false
    := by decide

/-! ### Claims -/

/-- C4: a row of the source row set contributes a note to the extractor's
output iff its title is non-null and its marked-for-deletion flag equals 0,
and each qualifying row produces exactly one record, in order: the output is
the per-row image of exactly the qualifying rows. -/
theorem extract_row_filter (env : PyEnv) (table : List Row) :
    (extract_apple_notes env true table).notes =
      (table.filter
        (fun r => r.title.isSome && r.markedForDeletion == 0)).map
        (fun r => (processRow env r).1) := by
  rw [extract_notes_eq]
  rfl

/-- C6: every record the extractor produces has a non-empty title (the
placeholder `"Untitled"` replaces an absent or empty source title); its
content is a `String` by the type of `Note`. -/
theorem extract_title_nonempty (env : PyEnv) (dbExists : Bool)
    (table : List Row) :
    ∀ n ∈ (extract_apple_notes env dbExists table).notes, n.title ≠ "" := by
  intro n hn
  cases dbExists with
  | false => simp [extract_apple_notes] at hn
  | true =>
    rw [extract_notes_eq] at hn
    rcases List.mem_map.mp hn with ⟨r, _, rfl⟩
    rw [processRow_title]
    exact pyStrOr_ne_empty _ _ (by decide)

/-- The note `wRow1` extracts to: placeholder title, snippet content. -/
def wNote1 : Note :=
  { title := "Untitled", content := "snip", created := some 1, modified := none }

/-- Witness for C6 at a concrete row whose title is empty. -/
theorem extract_title_nonempty_witness :
    wNote1 ∈ (extract_apple_notes wPyEnvOk true [wRow1]).notes ∧
    wNote1.title ≠ "" := by
  have hmem : wNote1 ∈ (extract_apple_notes wPyEnvOk true [wRow1]).notes := by
    decide
  exact ⟨hmem, extract_title_nonempty wPyEnvOk true [wRow1] _ hmem⟩

/-- C5: when a row's blob is absent — `None`, or the empty bytes, both falsy
under `if data:` — the content is the snippet (empty string when the snippet
is also absent or empty, per Python falsiness) and no warning is printed;
when a non-empty blob is present but decompression raises, the content
likewise falls back to the snippet, the warning naming the title is printed,
and the loop still processes the remaining rows.  (Decompression of an empty
blob is never attempted, so "decompression raises" presupposes `d ≠ []`.) -/
theorem content_snippet_fallback (env : PyEnv) (r : Row) :
    (r.data = none ∨ r.data = some [] →
      (processRow env r).1.content = pyStrOr r.snippet "" ∧
      (processRow env r).2 = []) ∧
    (∀ d e, r.data = some d → d ≠ [] →
      env.gzipDecompress d = Except.error e →
      (processRow env r).1.content = pyStrOr r.snippet "" ∧
      (processRow env r).2 =
        ["Warning: Could not decompress note \u0027" ++ pyShowOptStr r.title
          ++ "\u0027: " ++ e] ∧
      ∀ rest, (extractLoop env (r :: rest)).1 =
        (processRow env r).1 :: (extractLoop env rest).1) := by
  constructor
  · rintro (h | h) <;>
      exact ⟨by simp [processRow, h], by simp [processRow, h]⟩
  · intro d e hd hne he
    refine ⟨?_, ?_, fun rest => rfl⟩ <;> simp [processRow, hd, hne, he]

/-- Witness for C5: the `None`-blob row and the empty-bytes row fall back
silently (the latter even under an erroring gzip oracle, which is never
consulted), and the failing non-empty-blob row falls back with the warning
and continued extraction. -/
theorem content_snippet_fallback_witness :
    (processRow wPyEnvOk wRow1).1.content = "snip" ∧
    (processRow wPyEnvOk wRow1).2 = [] ∧
    (processRow wPyEnvFail wRow4).1.content = "" ∧
    (processRow wPyEnvFail wRow4).2 = [] ∧
    (processRow wPyEnvFail wRow2).1.content = "milk" ∧
    (processRow wPyEnvFail wRow2).2 =
      ["Warning: Could not decompress note \u0027Groceries\u0027: bad gzip"] ∧
    (extractLoop wPyEnvFail [wRow2, wRow1]).1 =
      (processRow wPyEnvFail wRow2).1 :: (extractLoop wPyEnvFail [wRow1]).1
    := by
  have h1 := (content_snippet_fallback wPyEnvOk wRow1).1 (Or.inl rfl)
  have h4 := (content_snippet_fallback wPyEnvFail wRow4).1 (Or.inr rfl)
  have h2 := (content_snippet_fallback wPyEnvFail wRow2).2 [1, 2, 3] "bad gzip"
    rfl (by decide) rfl
  exact ⟨h1.1.trans rfl, h1.2, h4.1.trans rfl, h4.2, h2.1.trans rfl,
    h2.2.1.trans (by decide), h2.2.2 [wRow1]⟩

/-- C7: when a non-empty blob is present (Python's `if data:`, the only case
in which decompression is attempted) and decompresses, the content is
exactly the lossily decoded text with every non-qualifying character
removed, so every character of it is printable (per the runtime's
predicate) or one of newline, carriage return, tab. -/
theorem content_printable (env : PyEnv) (r : Row) (d bytes : List Nat)
    (h1 : r.data = some d) (hne : d ≠ [])
    (h2 : env.gzipDecompress d = Except.ok bytes) :
    (processRow env r).1.content =
      String.mk ((env.decodeUtf8Ignore bytes).toList.filter
        (keepChar env.isPrintable)) ∧
    ∀ c ∈ (processRow env r).1.content.toList,
      env.isPrintable c = true ∨ c = '\n' ∨ c = '\r' ∨ c = '\t' := by
  have hrw : (processRow env r).1.content =
      String.mk ((env.decodeUtf8Ignore bytes).toList.filter
        (keepChar env.isPrintable)) := by
    simp [processRow, h1, hne, h2]
  refine ⟨hrw, ?_⟩
  intro c hc
  rw [hrw] at hc
  have hc' : c ∈ (env.decodeUtf8Ignore bytes).toList.filter
      (keepChar env.isPrintable) := hc
  have hk := (List.mem_filter.mp hc').2
  simp only [keepChar, Bool.or_eq_true, beq_iff_eq] at hk
  tauto

/-- Witness for C7: a decoded text with one unprintable character, cleaned
to printable-plus-newline content. -/
theorem content_printable_witness :
    wRow2.data = some [1, 2, 3] ∧
    ([1, 2, 3] : List Nat) ≠ [] ∧
    wPyEnvMixed.gzipDecompress [1, 2, 3] = Except.ok [1, 2, 3] ∧
    (processRow wPyEnvMixed wRow2).1.content = "a\n" ∧
    ∀ c ∈ (processRow wPyEnvMixed wRow2).1.content.toList,
      wPyEnvMixed.isPrintable c = true ∨ c = '\n' ∨ c = '\r' ∨ c = '\t' := by
  have h := content_printable wPyEnvMixed wRow2 [1, 2, 3] [1, 2, 3] rfl
    (by decide) rfl
  exact ⟨rfl, by decide, rfl, h.1.trans (by decide), h.2⟩

/-- C3: parsing the backup written by `save_backup` returns the serialized
note sequence unchanged — same length, same order, identical `title`,
`content`, `created`, `modified`. -/
theorem backup_roundtrip (notes : List Note) (_h : notes ≠ []) :
    parseBackup (save_backup notes) = some notes :=
  parseBackup_save notes

/-- Witness for C3 on a concrete three-note sequence. -/
theorem backup_roundtrip_witness :
    wNotes ≠ [] ∧ parseBackup (save_backup wNotes) = some wNotes :=
  ⟨by decide, backup_roundtrip wNotes (by decide)⟩

/-- C1: with valid credentials, when the remote create call raises for
exactly call index `k` (`1 ≤ k ≤ N`) and succeeds for every other index, the
uploader still attempts every one of the `N` records and its final tally is
`N - 1` successes and `1` failure. -/
theorem upload_single_rejection (env : KeepEnv) (notes : List Note)
    (u p : String) (k : Nat)
    (hlogin : env.login u p = Except.ok ())
    (hk1 : 1 ≤ k) (hk2 : k ≤ notes.length)
    (hfail : ∀ j t c, (∃ e, env.createNote j t c = Except.error e) ↔ j = k) :
    (upload_to_google_keep env notes u p).success_count = notes.length - 1 ∧
    (upload_to_google_keep env notes u p).failed_count = 1 ∧
    (∀ j, 1 ≤ j → j ≤ notes.length →
      attemptedIn (upload_to_google_keep env notes u p).events j) := by
  have hfl : (uploadLoop env.createNote notes.length 1 notes).2.1 = 1 := by
    rw [uploadLoop_fail_unique env.createNote notes.length k hfail notes 1]
    split_ifs with hcond
    · rfl
    · exact absurd ⟨hk1, by omega⟩ hcond
  have htot := uploadLoop_total env.createNote notes.length notes 1
  simp only [upload_to_google_keep, hlogin]
  refine ⟨by omega, hfl, ?_⟩
  intro j hj1 hj2
  have hatt := uploadLoop_attempted env.createNote notes.length notes 1 j hj1
    (by omega)
  refine attemptedIn_mono (fun ev hev => ?_) hatt
  exact List.mem_cons_of_mem _ (List.mem_append_left _ hev)

/-- Witness for C1: three records, call 2 rejected, tally 2/1, all three
attempted. -/
theorem upload_single_rejection_witness :
    (upload_to_google_keep wKeepFailAt2 wNotes "u" "p").success_count = 2 ∧
    (upload_to_google_keep wKeepFailAt2 wNotes "u" "p").failed_count = 1 ∧
    (∀ j, 1 ≤ j → j ≤ wNotes.length →
      attemptedIn (upload_to_google_keep wKeepFailAt2 wNotes "u" "p").events j)
    := by
  have h := upload_single_rejection wKeepFailAt2 wNotes "u" "p" 2 rfl
    (by decide) (by decide)
    (fun j t c => by
      by_cases hj : j = 2 <;> simp [wKeepFailAt2, hj])
  exact ⟨h.1.trans rfl, h.2.1, h.2.2⟩

/-- C2: when the login call raises, the uploader makes zero create attempts
and zero sync calls, returns `False`, and reports the failure as a login
failure — an event distinct from any per-record `createFailure` — printing
the app-password remediation guidance. -/
theorem upload_login_failure_isolated (env : KeepEnv) (notes : List Note)
    (u p e : String) (h : env.login u p = Except.error e) :
    (upload_to_google_keep env notes u p).retVal = false ∧
    (upload_to_google_keep env notes u p).events =
      [UploadEvent.loginFailure e] ∧
    (∀ j, ¬ attemptedIn (upload_to_google_keep env notes u p).events j) ∧
    UploadEvent.syncSuccess ∉ (upload_to_google_keep env notes u p).events ∧
    (∀ m, UploadEvent.syncFailure m ∉
      (upload_to_google_keep env notes u p).events) ∧
    (∀ i t m, UploadEvent.createFailure i t m ∉
      (upload_to_google_keep env notes u p).events) ∧
    UploadEvent.loginFailure e ∈ (upload_to_google_keep env notes u p).events ∧
    "Note: If you have 2FA enabled, you need to use an App Password:" ∈
      (upload_to_google_keep env notes u p).log := by
  refine ⟨by simp [upload_to_google_keep, h],
    by simp [upload_to_google_keep, h], ?_,
    by simp [upload_to_google_keep, h], by simp [upload_to_google_keep, h],
    by simp [upload_to_google_keep, h], by simp [upload_to_google_keep, h],
    by simp [upload_to_google_keep, h, loginFailureLog]⟩
  intro j hj
  simp only [attemptedIn] at hj
  rcases hj with ⟨t, ht⟩ | ⟨t, m, ht⟩ <;>
    simp [upload_to_google_keep, h] at ht

/-- Witness for C2 at a concrete client whose login raises. -/
theorem upload_login_failure_isolated_witness :
    (upload_to_google_keep wKeepBadLogin wNotes "u" "p").retVal = false ∧
    (upload_to_google_keep wKeepBadLogin wNotes "u" "p").events =
      [UploadEvent.loginFailure "invalid credentials"] ∧
    (∀ j, ¬ attemptedIn
      (upload_to_google_keep wKeepBadLogin wNotes "u" "p").events j) ∧
    UploadEvent.syncSuccess ∉
      (upload_to_google_keep wKeepBadLogin wNotes "u" "p").events ∧
    (∀ m, UploadEvent.syncFailure m ∉
      (upload_to_google_keep wKeepBadLogin wNotes "u" "p").events) ∧
    (∀ i t m, UploadEvent.createFailure i t m ∉
      (upload_to_google_keep wKeepBadLogin wNotes "u" "p").events) ∧
    UploadEvent.loginFailure "invalid credentials" ∈
      (upload_to_google_keep wKeepBadLogin wNotes "u" "p").events ∧
    "Note: If you have 2FA enabled, you need to use an App Password:" ∈
      (upload_to_google_keep wKeepBadLogin wNotes "u" "p").log :=
  upload_login_failure_isolated wKeepBadLogin wNotes "u" "p"
    "invalid credentials" rfl

/-- C8: after a successful login, exactly one sync call follows all
per-record attempts (the trace is login, then the loop's events, then one
sync event); a sync failure only adds a warning line, the tallies equal the
loop's tallies whatever the sync outcome, and the uploader still returns
`True`. -/
theorem upload_final_sync (env : KeepEnv) (notes : List Note) (u p : String)
    (h : env.login u p = Except.ok ()) :
    (upload_to_google_keep env notes u p).retVal = true ∧
    (∃ sev,
      ((sev = UploadEvent.syncSuccess ∧ env.sync = Except.ok ()) ∨
        (∃ m, sev = UploadEvent.syncFailure m ∧ env.sync = Except.error m ∧
          ("Warning: Sync error: " ++ m) ∈
            (upload_to_google_keep env notes u p).log)) ∧
      (upload_to_google_keep env notes u p).events =
        UploadEvent.loginSuccess ::
          (uploadLoop env.createNote notes.length 1 notes).2.2.1 ++ [sev]) ∧
    (upload_to_google_keep env notes u p).success_count =
      (uploadLoop env.createNote notes.length 1 notes).1 ∧
    (upload_to_google_keep env notes u p).failed_count =
      (uploadLoop env.createNote notes.length 1 notes).2.1 ∧
    (∀ sync',
      (upload_to_google_keep { env with sync := sync' } notes u p).success_count
        = (upload_to_google_keep env notes u p).success_count ∧
      (upload_to_google_keep { env with sync := sync' } notes u p).failed_count
        = (upload_to_google_keep env notes u p).failed_count) := by
  cases hs : env.sync with
  | ok v =>
    cases v
    refine ⟨?_, ⟨UploadEvent.syncSuccess, Or.inl ⟨rfl, rfl⟩, ?_⟩, ?_, ?_,
      fun sync' => ⟨?_, ?_⟩⟩ <;>
      simp [upload_to_google_keep, h, hs]
  | error m =>
    refine ⟨?_, ⟨UploadEvent.syncFailure m, Or.inr ⟨m, rfl, rfl, ?_⟩, ?_⟩,
      ?_, ?_, fun sync' => ⟨?_, ?_⟩⟩ <;>
      simp [upload_to_google_keep, h, hs]

/-- Witness for C8 at a client whose every create call and the sync raise:
the run still returns `True` and tallies 0 successes, 3 failures. -/
theorem upload_final_sync_witness :
    (upload_to_google_keep wKeepAllFail wNotes "u" "p").retVal = true ∧
    (∃ sev,
      ((sev = UploadEvent.syncSuccess ∧ wKeepAllFail.sync = Except.ok ()) ∨
        (∃ m, sev = UploadEvent.syncFailure m ∧
          wKeepAllFail.sync = Except.error m ∧
          ("Warning: Sync error: " ++ m) ∈
            (upload_to_google_keep wKeepAllFail wNotes "u" "p").log)) ∧
      (upload_to_google_keep wKeepAllFail wNotes "u" "p").events =
        UploadEvent.loginSuccess ::
          (uploadLoop wKeepAllFail.createNote wNotes.length 1 wNotes).2.2.1
            ++ [sev]) ∧
    (upload_to_google_keep wKeepAllFail wNotes "u" "p").success_count =
      (uploadLoop wKeepAllFail.createNote wNotes.length 1 wNotes).1 ∧
    (upload_to_google_keep wKeepAllFail wNotes "u" "p").failed_count =
      (uploadLoop wKeepAllFail.createNote wNotes.length 1 wNotes).2.1 ∧
    (∀ sync',
      (upload_to_google_keep { wKeepAllFail with sync := sync' } wNotes "u"
        "p").success_count
        = (upload_to_google_keep wKeepAllFail wNotes "u" "p").success_count ∧
      (upload_to_google_keep { wKeepAllFail with sync := sync' } wNotes "u"
        "p").failed_count
        = (upload_to_google_keep wKeepAllFail wNotes "u" "p").failed_count) :=
  upload_final_sync wKeepAllFail wNotes "u" "p" rfl

/-- C9: when the extractor returns no notes (missing database or no
qualifying rows), `main` writes no backup, never prompts for credentials,
never enters the upload phase, and prints the no-notes message. -/
theorem main_empty_short (env : MainEnv)
    (h : (extract_apple_notes env.py env.dbExists env.table).notes = []) :
    (main env).backup = none ∧
    (main env).credentialsRequested = false ∧
    (main env).upload = none ∧
    "No notes found or error reading Apple Notes database." ∈ (main env).log
    := by
  simp [main, h]

/-- Witness for C9 at a run whose database file is missing. -/
theorem main_empty_short_witness :
    (main wMainEnvNoDb).backup = none ∧
    (main wMainEnvNoDb).credentialsRequested = false ∧
    (main wMainEnvNoDb).upload = none ∧
    "No notes found or error reading Apple Notes database." ∈
      (main wMainEnvNoDb).log :=
  main_empty_short wMainEnvNoDb rfl

/-- C10: the uploader returns `False` exactly when the login call raises
(so `True` whenever authentication succeeds, however many creates or the
sync fail), and `main` ignores that return value: whenever the upload phase
runs at all, the completion banner is printed regardless. -/
theorem upload_retval_iff_login (kenv : KeepEnv) (notes : List Note)
    (u p : String) (env : MainEnv) :
    ((upload_to_google_keep kenv notes u p).retVal = false ↔
      ∃ e, kenv.login u p = Except.error e) ∧
    ((extract_apple_notes env.py env.dbExists env.table).notes ≠ [] →
      (main env).upload =
        some (upload_to_google_keep env.keep
          (extract_apple_notes env.py env.dbExists env.table).notes
          env.username env.password) ∧
      "Migration complete!" ∈ (main env).log) := by
  constructor
  · cases hl : kenv.login u p with
    | ok v => cases v; simp [upload_to_google_keep, hl]
    | error e => simp [upload_to_google_keep, hl]
  · intro hne
    have hemp : (extract_apple_notes env.py env.dbExists env.table).notes.isEmpty
        = false := by
      simpa [List.isEmpty_iff] using hne
    simp [main, hemp]

/-- Witness for C10: a failing login makes the uploader return `False`, yet
`main` on a bad-login run still prints the completion banner. -/
theorem upload_retval_iff_login_witness :
    ((upload_to_google_keep wKeepBadLogin wNotes "u" "p").retVal = false ↔
      ∃ e, wKeepBadLogin.login "u" "p" = Except.error e) ∧
    ((main wMainEnvRun).upload =
      some (upload_to_google_keep wMainEnvRun.keep
        (extract_apple_notes wMainEnvRun.py wMainEnvRun.dbExists
          wMainEnvRun.table).notes
        wMainEnvRun.username wMainEnvRun.password) ∧
    "Migration complete!" ∈ (main wMainEnvRun).log) := by
  have h := upload_retval_iff_login wKeepBadLogin wNotes "u" "p" wMainEnvRun
  exact ⟨h.1, h.2 (by decide)⟩

end Migrate
